import Mathlib

/-!
Verification development for the KiBot python plugin runtime
(`server/core/python-plugin-system`).

We shallowly embed the runtime state and dispatch paths of
`plugin_base.py` (`PluginBase`) and `ipc_client.py` (`IPCClient`):

* Python `dict`s become association lists with Python-dict semantics
  (insert overwrites an existing key in place, otherwise appends);
* plugin-supplied handlers are abstracted by their observable outcome
  (return normally, or raise an exception carrying a message);
* wall-clock readings (`time.time()`, `datetime.now().timestamp()`)
  become explicit rational-number parameters (`now`, and the measured
  `duration` of a handler call);
* Python floats become rationals: every claim we check is about
  values that the source computes and stores with the very same
  expressions, so exact arithmetic is faithful for them;
* writes to stdout/stderr become explicit lists of emitted messages
  and log entries in the result of the embedded function.
-/

/-- Lookup in an association list modelling a Python `dict`. -/
def dLookup {α : Type} (k : String) : List (String × α) → Option α
  | [] => none
  | (k', v) :: rest => if k' = k then some v else dLookup k rest

/-- Python `dict` assignment `m[k] = v`: overwrite the existing key in
place, otherwise append the new binding at the end. -/
def dInsert {α : Type} (k : String) (v : α) : List (String × α) → List (String × α)
  | [] => [(k, v)]
  | (k', v') :: rest => if k' = k then (k, v) :: rest else (k', v') :: dInsert k v rest

/-- Python `dict.pop(k, None)`: drop the binding for `k` if present. -/
def dErase {α : Type} (k : String) : List (String × α) → List (String × α)
  | [] => []
  | (k', v') :: rest => if k' = k then rest else (k', v') :: dErase k rest

/-!
Runtime state of `PluginBase` (`plugin_base.py`).
-/

/-- Observable outcome of invoking a plugin-supplied handler: it either
returns normally or raises an exception with the given message. -/
inductive HandlerOutcome : Type
  | ok : HandlerOutcome
  | raises : String → HandlerOutcome
deriving DecidableEq, Repr

/-- One sample of `last_executions` in a performance record
(`plugin_base.py` lines 246-250). -/
structure PerfSample where
  timestamp : ℚ
  duration : ℚ
  success : Bool
deriving DecidableEq, Repr

/-- Per-name performance record (`plugin_base.py` lines 221-230).
The Python initial value `min_duration = float('inf')` is modelled by
`none`; a recorded minimum is `some m`. -/
structure PerfRecord where
  total_executions : Nat
  successful_executions : Nat
  failed_executions : Nat
  total_duration : ℚ
  min_duration : Option ℚ
  max_duration : ℚ
  avg_duration : ℚ
  last_executions : List PerfSample
deriving DecidableEq, Repr

/-- Fresh performance record for a name not seen before
(`plugin_base.py` lines 220-230). -/
def freshPerfRecord : PerfRecord :=
  { total_executions := 0
    successful_executions := 0
    failed_executions := 0
    total_duration := 0
    min_duration := none
    max_duration := 0
    avg_duration := 0
    last_executions := [] }

/-- Entry of the bounded error log (`plugin_base.py` lines 184-192).
The captured `stack` string is environment-dependent text and is not
modelled; no claim concerns it. -/
structure ErrorInfo where
  etype : String
  source : String
  message : String
  timestamp : ℚ
  plugin_id : String
deriving DecidableEq, Repr

/-- Monotone statistics counters (`plugin_base.py` lines 73-78). -/
structure Statistics where
  command_executions : Nat
  events_handled : Nat
  tasks_executed : Nat
  errors_occurred : Nat
deriving DecidableEq, Repr

/-- Bookkeeping for one scheduled task (`plugin_base.py` lines 510-516,
540).  The stored wrapped handler closes over the plugin-supplied
callback, abstracted here by its outcome `houtcome`; `handler_set`
records whether the `'handler'` key has been added yet. -/
structure TaskInfo where
  cron : String
  execution_count : Nat
  last_executed : Option ℚ
  is_active : Bool
  handler_set : Bool
  houtcome : HandlerOutcome
deriving DecidableEq, Repr

/-- Runtime-owned state of a `PluginBase` instance.  Registered command
and event handlers are abstracted by the outcome of their underlying
callback (the wrapped callback is a pure function of it, installed by
`register_command` / `register_event`). -/
structure PluginState where
  plugin_id : String
  event_handlers : List (String × List HandlerOutcome)
  command_handlers : List (String × HandlerOutcome)
  scheduled_tasks : List (String × TaskInfo)
  statistics : Statistics
  command_performance : List (String × PerfRecord)
  event_performance : List (String × PerfRecord)
  task_performance : List (String × PerfRecord)
  last_activity : ℚ
  errors : List ErrorInfo
  concurrent_operations : Int
  max_concurrent_operations : Int
deriving DecidableEq, Repr

/-- State right after `PluginBase.__init__` (`plugin_base.py` lines
40-95): empty tables, zero counters. -/
def initPluginState (pid : String) (t0 : ℚ) : PluginState :=
  { plugin_id := pid
    event_handlers := []
    command_handlers := []
    scheduled_tasks := []
    statistics := { command_executions := 0, events_handled := 0
                    tasks_executed := 0, errors_occurred := 0 }
    command_performance := []
    event_performance := []
    task_performance := []
    last_activity := t0
    errors := []
    concurrent_operations := 0
    max_concurrent_operations := 0 }

/-- Embedding of `_PluginBase__record_error_internal` (`plugin_base.py`
lines 178-202): append the error entry, bump `errors_occurred`, keep
only the most recent 100 entries (`errors.pop(0)` when over the cap). -/
def record_error_internal (error_type source message : String) (now : ℚ)
    (st : PluginState) : PluginState :=
  let info : ErrorInfo :=
    { etype := error_type, source := source, message := message
      timestamp := now, plugin_id := st.plugin_id }
  let errs := st.errors ++ [info]
  { st with
    errors := if errs.length > 100 then errs.tail else errs
    statistics := { st.statistics with
                    errors_occurred := st.statistics.errors_occurred + 1 } }

/-- Selection of the per-kind performance dictionary
(`plugin_base.py` lines 214-218): unknown kinds fall back to the
command dictionary. -/
def selectPerfMap (st : PluginState) (perf_type : String) : List (String × PerfRecord) :=
  if perf_type = "event" then st.event_performance
  else if perf_type = "task" then st.task_performance
  else st.command_performance

/-- Writing back the per-kind performance dictionary selected by
`selectPerfMap`. -/
def setPerfMap (st : PluginState) (perf_type : String)
    (m : List (String × PerfRecord)) : PluginState :=
  if perf_type = "event" then { st with event_performance := m }
  else if perf_type = "task" then { st with task_performance := m }
  else { st with command_performance := m }

/-- Python `min(perf['min_duration'], duration)` where the initial
value is `float('inf')` (modelled as `none`). -/
def minDuration : Option ℚ → ℚ → Option ℚ
  | none, d => some d
  | some m, d => some (min m d)

/-- Embedding of `_PluginBase__record_performance_internal`
(`plugin_base.py` lines 204-254): negative durations are ignored;
otherwise the per-name record is created on first use, counters and
min/max/avg/total are recomputed, the sample is appended to
`last_executions` and the window is trimmed to the most recent 20. -/
def record_performance_internal (perf_type name : String) (duration : ℚ)
    (success : Bool) (now : ℚ) (st : PluginState) : PluginState :=
  if duration < 0 then st
  else
    let m := selectPerfMap st perf_type
    let perf := (dLookup name m).getD freshPerfRecord
    let total := perf.total_executions + 1
    let total_dur := perf.total_duration + duration
    let window := perf.last_executions ++
      [{ timestamp := now, duration := duration, success := success }]
    let perf' : PerfRecord :=
      { total_executions := total
        successful_executions :=
          perf.successful_executions + (if success then 1 else 0)
        failed_executions :=
          perf.failed_executions + (if success then 0 else 1)
        total_duration := total_dur
        min_duration := minDuration perf.min_duration duration
        max_duration := max perf.max_duration duration
        avg_duration := total_dur / (total : ℚ)
        last_executions := if window.length > 20 then window.tail else window }
    setPerfMap st perf_type (dInsert name perf' m)

/-!
Instrumentation wrappers (`plugin_base.py`).  Each `register_*` call
installs a wrapper around the plugin-supplied callback; the wrapper is
a pure function of the callback outcome, the clock readings, and the
runtime state, so it is embedded directly.
-/

/-- Pre-invocation phase of the command wrapper
(`plugin_base.py` lines 396-402): stamp `last_activity`, bump
`command_executions`, increment the concurrency counter and update its
high-water mark. -/
def commandWrapperEnter (now : ℚ) (st : PluginState) : PluginState :=
  let st1 := { st with
    last_activity := now
    statistics := { st.statistics with
                    command_executions := st.statistics.command_executions + 1 }
    concurrent_operations := st.concurrent_operations + 1 }
  if st1.concurrent_operations > st1.max_concurrent_operations then
    { st1 with max_concurrent_operations := st1.concurrent_operations }
  else st1

/-- Embedding of the `wrapped_handler` installed by
`PluginBase.register_command` (`plugin_base.py` lines 395-432).
On handler failure it records the error and attempts a best-effort
user-facing notice via `send_message` (an outbound IPC call whose own
failure is swallowed by the bare `except: pass`; it does not touch the
runtime state modelled here).  The `except` block contains no `raise`
statement, so the wrapper returns normally in both branches; the
`finally` block decrements the concurrency counter and records the
performance sample either way. -/
def command_wrapped_handler (command : String) (houtcome : HandlerOutcome)
    (now dur : ℚ) (st : PluginState) : PluginState × HandlerOutcome :=
  let st1 := commandWrapperEnter now st
  match houtcome with
  | .ok =>
    let st2 := { st1 with concurrent_operations := st1.concurrent_operations - 1 }
    (record_performance_internal "command" command dur true now st2, .ok)
  | .raises msg =>
    let st2 := record_error_internal "command" command msg now st1
    let st3 := { st2 with concurrent_operations := st2.concurrent_operations - 1 }
    (record_performance_internal "command" command dur false now st3, .ok)

/-- Pre-invocation phase of the event wrapper
(`plugin_base.py` lines 335-341): stamp `last_activity`, bump
`events_handled`, increment the concurrency counter and update its
high-water mark. -/
def eventWrapperEnter (now : ℚ) (st : PluginState) : PluginState :=
  let st1 := { st with
    last_activity := now
    statistics := { st.statistics with
                    events_handled := st.statistics.events_handled + 1 }
    concurrent_operations := st.concurrent_operations + 1 }
  if st1.concurrent_operations > st1.max_concurrent_operations then
    { st1 with max_concurrent_operations := st1.concurrent_operations }
  else st1

/-- Embedding of the `wrapped_handler` installed by
`PluginBase.register_event` (`plugin_base.py` lines 334-363).
On handler failure it records the error and re-raises (`raise` on line
357); the `finally` block decrements the concurrency counter and
records the performance sample either way. -/
def event_wrapped_handler (event_type : String) (houtcome : HandlerOutcome)
    (now dur : ℚ) (st : PluginState) : PluginState × HandlerOutcome :=
  let st1 := eventWrapperEnter now st
  match houtcome with
  | .ok =>
    let st2 := { st1 with concurrent_operations := st1.concurrent_operations - 1 }
    (record_performance_internal "event" event_type dur true now st2, .ok)
  | .raises msg =>
    let st2 := record_error_internal "event" event_type msg now st1
    let st3 := { st2 with concurrent_operations := st2.concurrent_operations - 1 }
    (record_performance_internal "event" event_type dur false now st3, .raises msg)

/-- Pre-invocation phase of the `wrapped_handler` built by
`PluginBase.schedule` (`plugin_base.py` lines 519-523): stamp
`last_activity`, bump `tasks_executed`, update the per-task
bookkeeping dict (held by reference inside `_scheduled_tasks`).  This
wrapper touches neither the concurrency counter nor the performance
dictionaries. -/
def taskWrapperEnter (name : String) (now : ℚ) (st : PluginState) : PluginState :=
  let tasks' :=
    match dLookup name st.scheduled_tasks with
    | some t =>
      dInsert name
        { t with execution_count := t.execution_count + 1
                 last_executed := some now }
        st.scheduled_tasks
    | none => st.scheduled_tasks
  { st with
    last_activity := now
    statistics := { st.statistics with
                    tasks_executed := st.statistics.tasks_executed + 1 }
    scheduled_tasks := tasks' }

/-- Embedding of the `wrapped_handler` built by `PluginBase.schedule`
(`plugin_base.py` lines 519-529): the pre-invocation phase, then the
callback; on failure record the error (via `_record_error`, which
delegates to the internal recorder) and re-raise. -/
def task_wrapped_handler (name : String) (houtcome : HandlerOutcome)
    (now : ℚ) (st : PluginState) : PluginState × HandlerOutcome :=
  let st1 := taskWrapperEnter name now st
  match houtcome with
  | .ok => (st1, .ok)
  | .raises msg => (record_error_internal "task" name msg now st1, .raises msg)

/-- Embedding of `PluginBase.register_event` (`plugin_base.py` lines
322-366): append the wrapped handler to the list for the event type,
creating the list on first registration. -/
def register_event (event_type : String) (houtcome : HandlerOutcome)
    (st : PluginState) : PluginState :=
  let hs := (dLookup event_type st.event_handlers).getD []
  { st with event_handlers := dInsert event_type (hs ++ [houtcome]) st.event_handlers }

/-- Embedding of `PluginBase.register_command` (`plugin_base.py` lines
385-439): store the wrapped handler under the command name.  The
asynchronous `registerCommand` notification to the host is an outbound
IPC call with no effect on the runtime state modelled here. -/
def register_command (command : String) (houtcome : HandlerOutcome)
    (st : PluginState) : PluginState :=
  { st with command_handlers := dInsert command houtcome st.command_handlers }

/-- Embedding of `PluginBase.schedule` (`plugin_base.py` lines
501-542): store the task bookkeeping dict and then the wrapped
handler under the task name (`handler_set` records that the
`'handler'` key was added).  The `registerSchedule` request to the
host is an outbound IPC call with no effect on the state modelled
here. -/
def schedule (name cron : String) (houtcome : HandlerOutcome)
    (st : PluginState) : PluginState :=
  let tinfo : TaskInfo :=
    { cron := cron, execution_count := 0, last_executed := none
      is_active := true, handler_set := true, houtcome := houtcome }
  { st with scheduled_tasks := dInsert name tinfo st.scheduled_tasks }

/-- Embedding of `PluginBase.dispatch_command` (`plugin_base.py` lines
544-576).  With a registered handler it stamps `last_activity`, bumps
`command_executions` a first time, and invokes the stored wrapped
handler inside a `try` whose `except` records the error and re-raises;
without one it raises `Unknown command: <name>`. -/
def dispatch_command (command : String) (now dur : ℚ)
    (st : PluginState) : PluginState × HandlerOutcome :=
  match dLookup command st.command_handlers with
  | some houtcome =>
    let st1 := { st with
      last_activity := now
      statistics := { st.statistics with
                      command_executions := st.statistics.command_executions + 1 } }
    let res := command_wrapped_handler command houtcome now dur st1
    match res.2 with
    | .ok => (res.1, .ok)
    | .raises msg => (record_error_internal "command" command msg now res.1, .raises msg)
  | none => (st, .raises ("Unknown command: " ++ command))

/-- Embedding of `PluginBase.dispatch_task` (`plugin_base.py` lines
578-591): invoke the stored wrapped handler if the task exists and its
`'handler'` key is set; any exception from it is caught and only
logged, and a missing task is a silent no-op. -/
def dispatch_task (task_name : String) (now : ℚ) (st : PluginState) : PluginState :=
  match dLookup task_name st.scheduled_tasks with
  | some t => if t.handler_set then (task_wrapped_handler task_name t.houtcome now st).1 else st
  | none => st

/-!
Diagnostics snapshot (`PluginBase.get_detailed_info`,
`plugin_base.py` lines 608-639).

Python reference semantics matter for this operation: a dict-valued
entry of the returned snapshot is either a freshly built object
(a copy, insulated from later runtime mutation) or the very dict owned
by the runtime (a live alias, through which later in-place mutations
are visible).  `SnapPart` records which of the two the source does for
each entry, and `readStatistics` and friends model dereferencing the
snapshot entry at a later point in time, when the runtime state has
become `current`.
-/

/-- A dict-valued entry of the snapshot: the runtime-owned object
itself (`liveAlias`), or a freshly built copy (`copied`). -/
inductive SnapPart (α : Type) : Type
  | liveAlias : SnapPart α
  | copied : α → SnapPart α
deriving DecidableEq, Repr

/-- Embedding of the dict returned by `get_detailed_info`.  Entries
built fresh by the source (list constructors, slices, comprehensions)
are `copied`; entries that store `self.statistics` or the
`self.performance[...]` dicts directly are `liveAlias`.  Scalar fields
(`is_enabled`, `basic`) and derived scalars are left out; no claim
concerns them. -/
structure DetailedInfo where
  last_activity : ℚ
  commands : List String
  events : List String
  tasks : List (String × TaskInfo)
  errors_slice : List ErrorInfo
  statistics : SnapPart Statistics
  commandPerformance : SnapPart (List (String × PerfRecord))
  eventPerformance : SnapPart (List (String × PerfRecord))
  taskPerformance : SnapPart (List (String × PerfRecord))
deriving DecidableEq, Repr

/-- Python slice `self.errors[-10:]`: the most recent (at most) ten
entries, as a fresh list. -/
def takeLast {α : Type} (n : Nat) (l : List α) : List α :=
  l.drop (l.length - n)

/-- Embedding of `PluginBase.get_detailed_info` (`plugin_base.py`
lines 608-639).  `commands`, `events`, the per-task dicts and the
`errors` slice are freshly built (copies); `'statistics':
self.statistics` and the three performance entries
(`self.performance['command_performance']` etc.) store the
runtime-owned dicts themselves (live aliases). -/
def get_detailed_info (st : PluginState) : DetailedInfo :=
  { last_activity := st.last_activity
    commands := st.command_handlers.map Prod.fst
    events := st.event_handlers.map Prod.fst
    tasks := st.scheduled_tasks
    errors_slice := takeLast 10 st.errors
    statistics := SnapPart.liveAlias
    commandPerformance := SnapPart.liveAlias
    eventPerformance := SnapPart.liveAlias
    taskPerformance := SnapPart.liveAlias }

/-- Dereference the `statistics` entry of a snapshot at a later time,
when the runtime state is `current`. -/
def DetailedInfo.readStatistics (snap : DetailedInfo) (current : PluginState) : Statistics :=
  match snap.statistics with
  | .liveAlias => current.statistics
  | .copied v => v

/-- Dereference the `commandPerformance` entry of a snapshot at a
later time, when the runtime state is `current`. -/
def DetailedInfo.readCommandPerformance (snap : DetailedInfo)
    (current : PluginState) : List (String × PerfRecord) :=
  match snap.commandPerformance with
  | .liveAlias => current.command_performance
  | .copied v => v

/-!
IPC client (`ipc_client.py`).  Messages parsed from the wire are
`dict.get` projections, hence `Option`-valued fields; the `data`
payload is abstracted to its serialized text.  Log lines written to
stderr become explicit `LogEntry` values (`_log_info` emits at info
level, `_log_error` at error level; the `IPCClient` has no
warning-level logging primitive at all).
-/

/-- Severity of an emitted log line. -/
inductive LogLevel : Type
  | debug | info | warn | error
deriving DecidableEq, Repr

/-- One log line written to the diagnostic side-channel (stderr). -/
structure LogEntry where
  level : LogLevel
  text : String
deriving DecidableEq, Repr

/-- A wire message as seen by `IPCClient` after `json.loads`, with
each field projected by `message.get(...)`. -/
structure IPCMessage where
  mtype : Option String
  id : Option String
  action : Option String
  data : Option String
  error : Option String
  timestamp : Option ℚ
deriving DecidableEq, Repr

/-- Python truthiness of an optional string: `None` and `''` are
falsy. -/
def truthy : Option String → Bool
  | none => false
  | some s => !s.isEmpty

/-- Python f-string rendering of an optional string field. -/
def showOpt : Option String → String
  | none => "None"
  | some s => s

/-- Settlement delivered to the awaiting `send_request` caller when
its future completes (`ipc_client.py` lines 86-90). -/
inductive FutureOutcome : Type
  | result : Option String → FutureOutcome
  | failure : String → FutureOutcome
deriving DecidableEq, Repr

/-- Observable outcome of a registered request handler on a given
payload: a result value, or a raised exception message. -/
inductive ReqOutcome : Type
  | ok : Option String → ReqOutcome
  | raises : String → ReqOutcome
deriving DecidableEq, Repr

/-- State of an `IPCClient` (`ipc_client.py` lines 17-21).  The
pending futures carry no model content beyond their key; registered
request/event handlers are abstracted by the outcome they produce on
a given payload. -/
structure IPCState where
  pending_requests : List (String × Unit)
  event_handlers : List (String × (Option String → ReqOutcome))
  running : Bool

/-- Result of `IPCClient._handle_message` (`ipc_client.py` lines
76-103): the updated client state, the log lines emitted, the futures
settled (request id with its outcome), and the request/event messages
handed to `asyncio.create_task` for off-loop processing. -/
structure HandleMessageResult where
  state : IPCState
  logs : List LogEntry
  settled : List (String × FutureOutcome)
  spawned : List IPCMessage

/-- Embedding of `IPCClient._handle_message` (`ipc_client.py` lines
76-103).  Every message first gets the generic info log; a response
whose truthy id is registered settles and removes its future (error
field truthy means exception, otherwise result); a response with an
unknown or falsy id falls through with no further action and no
further log; request and event messages are spawned off the intake
loop; an unrecognized type is logged at error level. -/
def handle_message (msg : IPCMessage) (st : IPCState) : HandleMessageResult :=
  let entryLog : LogEntry :=
    { level := LogLevel.info
      text := "处理消息: type=" ++ showOpt msg.mtype ++ ", id=" ++ showOpt msg.id }
  if msg.mtype = some "response" then
    if truthy msg.id ∧ (dLookup (showOpt msg.id) st.pending_requests).isSome then
      let i := showOpt msg.id
      let st' := { st with pending_requests := dErase i st.pending_requests }
      let outcome :=
        if truthy msg.error then FutureOutcome.failure (showOpt msg.error)
        else FutureOutcome.result msg.data
      { state := st', logs := [entryLog], settled := [(i, outcome)], spawned := [] }
    else
      { state := st, logs := [entryLog], settled := [], spawned := [] }
  else if msg.mtype = some "request" then
    { state := st, logs := [entryLog], settled := [], spawned := [msg] }
  else if msg.mtype = some "event" then
    { state := st, logs := [entryLog], settled := [], spawned := [msg] }
  else
    { state := st
      logs := [entryLog,
               { level := LogLevel.error, text := "未知消息类型: " ++ showOpt msg.mtype }]
      settled := [], spawned := [] }

/-- Result of `IPCClient._handle_request` (`ipc_client.py` lines
105-141): the (unchanged) client state, the response messages written
to stdout, the handler invocations performed (action with payload),
and the log lines emitted. -/
structure HandleRequestResult where
  state : IPCState
  sent : List IPCMessage
  invoked : List (String × Option String)
  logs : List LogEntry

/-- Outbound message built by `send_response_sync` (`ipc_client.py`
lines 202-210). -/
def responseMessage (msg_id : String) (data : Option String) (now : ℚ) : IPCMessage :=
  { mtype := some "response", id := some msg_id, action := none
    data := data, error := none, timestamp := some now }

/-- Outbound message built by `send_error_sync` (`ipc_client.py`
lines 212-220). -/
def errorMessage (msg_id : String) (err : String) (now : ℚ) : IPCMessage :=
  { mtype := some "response", id := some msg_id, action := none
    data := none, error := some err, timestamp := some now }

/-- Embedding of `IPCClient._handle_request` (`ipc_client.py` lines
105-141).  A request whose id is missing (or falsy) is dropped with a
single error log: no handler runs and nothing is sent.  Otherwise the
handler registered under `request:<action>` is invoked and exactly one
response (result or error) is emitted; an unknown action yields the
`Unknown action` error response. -/
def handle_request (msg : IPCMessage) (now : ℚ) (st : IPCState) : HandleRequestResult :=
  if !truthy msg.id then
    { state := st, sent := [], invoked := []
      logs := [{ level := LogLevel.error, text := "收到没有ID的请求，忽略" }] }
  else
    let i := showOpt msg.id
    let a := showOpt msg.action
    match dLookup ("request:" ++ a) st.event_handlers with
    | some handler =>
      match handler msg.data with
      | ReqOutcome.ok result =>
        { state := st, sent := [responseMessage i result now]
          invoked := [(a, msg.data)]
          logs := [{ level := LogLevel.info, text := "开始处理请求: " ++ a },
                   { level := LogLevel.info, text := "请求处理完成: " ++ a }] }
      | ReqOutcome.raises m =>
        { state := st, sent := [errorMessage i m now]
          invoked := [(a, msg.data)]
          logs := [{ level := LogLevel.info, text := "开始处理请求: " ++ a },
                   { level := LogLevel.error, text := "请求处理失败: " ++ a }] }
    | none =>
      { state := st, sent := [errorMessage i ("Unknown action: " ++ a) now]
        invoked := []
        logs := [{ level := LogLevel.error, text := "未知请求: " ++ a }] }

/-- Embedding of `IPCClient.send_request` (`ipc_client.py` lines
165-200) on the path where no matching response arrives before the
timeout: a fresh id is generated, the future is registered, the
request message is written, `asyncio.wait_for` raises `TimeoutError`,
the registry entry is popped (`pop(msg_id, None)`), and
`Exception("Request timeout: <action>")` is raised to the caller.
The result carries the final state, the emitted request message, and
the raised exception text. -/
def send_request_timeout (action : String) (data : Option String)
    (msg_id : String) (now : ℚ) (st : IPCState) : IPCState × IPCMessage × String :=
  let message : IPCMessage :=
    { mtype := some "request", id := some msg_id, action := some action
      data := data, error := none, timestamp := some now }
  let st1 := { st with pending_requests := dInsert msg_id () st.pending_requests }
  let st2 := { st1 with pending_requests := dErase msg_id st1.pending_requests }
  (st2, message, "Request timeout: " ++ action)


/-!
Derived forms used to state the claims: sequences of recording
operations, and one full wrapped-handler invocation of each kind.
-/

/-- One recording operation on the runtime state: an error recording
or a performance recording. -/
inductive RecordOp : Type
  | err : String → String → String → ℚ → RecordOp
  | perf : String → String → ℚ → Bool → ℚ → RecordOp

/-- Apply one recording operation. -/
def applyRecordOp : RecordOp → PluginState → PluginState
  | RecordOp.err etype source msg now, st =>
      record_error_internal etype source msg now st
  | RecordOp.perf ptype name dur success now, st =>
      record_performance_internal ptype name dur success now st

/-- Apply a sequence of recording operations, oldest first. -/
def applyRecordOps (ops : List RecordOp) (st : PluginState) : PluginState :=
  ops.foldl (fun s o => applyRecordOp o s) st

/-- The `success` flag the wrappers pass to the performance recorder
for a given handler outcome. -/
def outcomeSuccess : HandlerOutcome → Bool
  | HandlerOutcome.ok => true
  | HandlerOutcome.raises _ => false

/-- One invocation of a wrapped handler, of any of the three kinds. -/
inductive Invocation : Type
  | cmd : String → HandlerOutcome → ℚ → ℚ → Invocation
  | evt : String → HandlerOutcome → ℚ → ℚ → Invocation
  | task : String → HandlerOutcome → ℚ → Invocation

/-- Run one wrapped-handler invocation, keeping the state only. -/
def runInvocation : Invocation → PluginState → PluginState
  | Invocation.cmd name h now dur, st => (command_wrapped_handler name h now dur st).1
  | Invocation.evt name h now dur, st => (event_wrapped_handler name h now dur st).1
  | Invocation.task name h now, st => (task_wrapped_handler name h now st).1

/-- The state in the middle of a wrapped-handler invocation, right
after its pre-invocation phase and before the underlying callback
runs: the only point where the concurrency counter differs from its
value at the call boundaries. -/
def invocationEnter : Invocation → PluginState → PluginState
  | Invocation.cmd _ _ now _, st => commandWrapperEnter now st
  | Invocation.evt _ _ now _, st => eventWrapperEnter now st
  | Invocation.task name _ now, st => taskWrapperEnter name now st

/-- Repeated timed-out requests: each entry is an action, a payload
and the fresh id generated for it. -/
def run_timeouts (reqs : List (String × Option String × String)) (now : ℚ)
    (st : IPCState) : IPCState :=
  reqs.foldl (fun s r => (send_request_timeout r.1 r.2.1 r.2.2 now s).1) st

/-- Concrete state whose error log is exactly full, used to exercise
the eviction path. -/
def fullErrorsState : PluginState :=
  { initPluginState "p" 0 with
    errors := List.replicate 100
      { etype := "e", source := "s", message := "m"
        timestamp := 0, plugin_id := "p" } }

/-- Concrete state with one exactly full performance window, used to
exercise the eviction path. -/
def fullWindowState : PluginState :=
  { initPluginState "p" 0 with
    command_performance :=
      [("n", { freshPerfRecord with
               last_executions := List.replicate 20
                 { timestamp := 0, duration := 0, success := true } })] }

/-!
Helper lemmas about the Python-dict embedding.
-/

theorem dLookup_dInsert_same {α : Type} (k : String) (v : α) (m : List (String × α)) :
    dLookup k (dInsert k v m) = some v := by
  induction m with
  | nil => simp [dInsert, dLookup]
  | cons hd tl ih =>
    obtain ⟨k', v'⟩ := hd
    by_cases h : k' = k
    · simp [dInsert, dLookup, h]
    · simp [dInsert, dLookup, h, ih]

theorem dLookup_dInsert_other {α : Type} (k k' : String) (v : α) (m : List (String × α))
    (hne : k' ≠ k) : dLookup k' (dInsert k v m) = dLookup k' m := by
  induction m with
  | nil => simp [dInsert, dLookup, Ne.symm hne]
  | cons hd tl ih =>
    obtain ⟨k₀, v₀⟩ := hd
    by_cases h : k₀ = k
    · subst h
      simp [dInsert, dLookup, Ne.symm hne]
    · simp only [dInsert, if_neg h, dLookup]
      by_cases h' : k₀ = k'
      · simp [h']
      · simp [h', ih]

theorem dErase_dInsert_fresh {α : Type} (k : String) (v : α) (m : List (String × α))
    (hfresh : dLookup k m = none) : dErase k (dInsert k v m) = m := by
  induction m with
  | nil => simp [dInsert, dErase]
  | cons hd tl ih =>
    obtain ⟨k₀, v₀⟩ := hd
    by_cases h : k₀ = k
    · simp [dLookup, h] at hfresh
    · simp only [dInsert, if_neg h, dErase, if_neg h]
      simp only [dLookup, if_neg h] at hfresh
      rw [ih hfresh]

theorem dLookup_dErase_other {α : Type} (k k' : String) (m : List (String × α))
    (hne : k' ≠ k) : dLookup k' (dErase k m) = dLookup k' m := by
  induction m with
  | nil => simp [dErase]
  | cons hd tl ih =>
    obtain ⟨k₀, v₀⟩ := hd
    by_cases h : k₀ = k
    · subst h
      simp [dErase, dLookup, Ne.symm hne]
    · simp only [dErase, if_neg h, dLookup]
      by_cases h' : k₀ = k'
      · simp [h']
      · simp [h', ih]


/-!
Frame lemmas for the recorders and the wrapper pre-invocation phases.
-/

theorem record_error_statistics (etype source msg : String) (now : ℚ) (st : PluginState) :
    (record_error_internal etype source msg now st).statistics =
      { st.statistics with errors_occurred := st.statistics.errors_occurred + 1 } := rfl

theorem record_error_concurrent (etype source msg : String) (now : ℚ) (st : PluginState) :
    (record_error_internal etype source msg now st).concurrent_operations =
      st.concurrent_operations := rfl

theorem record_error_perf_maps (etype source msg : String) (now : ℚ) (st : PluginState) :
    (record_error_internal etype source msg now st).command_performance =
        st.command_performance ∧
    (record_error_internal etype source msg now st).event_performance =
        st.event_performance ∧
    (record_error_internal etype source msg now st).task_performance =
        st.task_performance := ⟨rfl, rfl, rfl⟩

theorem setPerfMap_statistics (st : PluginState) (p : String) (m : List (String × PerfRecord)) :
    (setPerfMap st p m).statistics = st.statistics := by
  unfold setPerfMap
  split_ifs <;> rfl

theorem setPerfMap_concurrent (st : PluginState) (p : String) (m : List (String × PerfRecord)) :
    (setPerfMap st p m).concurrent_operations = st.concurrent_operations := by
  unfold setPerfMap
  split_ifs <;> rfl

theorem setPerfMap_errors (st : PluginState) (p : String) (m : List (String × PerfRecord)) :
    (setPerfMap st p m).errors = st.errors := by
  unfold setPerfMap
  split_ifs <;> rfl

theorem setPerfMap_max_concurrent (st : PluginState) (p : String)
    (m : List (String × PerfRecord)) :
    (setPerfMap st p m).max_concurrent_operations = st.max_concurrent_operations := by
  unfold setPerfMap
  split_ifs <;> rfl

theorem record_performance_statistics (p n : String) (d : ℚ) (s : Bool) (now : ℚ)
    (st : PluginState) :
    (record_performance_internal p n d s now st).statistics = st.statistics := by
  unfold record_performance_internal
  split
  · rfl
  · exact setPerfMap_statistics ..

theorem record_performance_concurrent (p n : String) (d : ℚ) (s : Bool) (now : ℚ)
    (st : PluginState) :
    (record_performance_internal p n d s now st).concurrent_operations =
      st.concurrent_operations := by
  unfold record_performance_internal
  split
  · rfl
  · exact setPerfMap_concurrent ..

theorem record_performance_errors (p n : String) (d : ℚ) (s : Bool) (now : ℚ)
    (st : PluginState) :
    (record_performance_internal p n d s now st).errors = st.errors := by
  unfold record_performance_internal
  split
  · rfl
  · exact setPerfMap_errors ..

theorem commandWrapperEnter_concurrent (now : ℚ) (st : PluginState) :
    (commandWrapperEnter now st).concurrent_operations = st.concurrent_operations + 1 := by
  unfold commandWrapperEnter
  dsimp only
  split <;> rfl

theorem commandWrapperEnter_statistics (now : ℚ) (st : PluginState) :
    (commandWrapperEnter now st).statistics =
      { st.statistics with
        command_executions := st.statistics.command_executions + 1 } := by
  unfold commandWrapperEnter
  dsimp only
  split <;> rfl

theorem eventWrapperEnter_concurrent (now : ℚ) (st : PluginState) :
    (eventWrapperEnter now st).concurrent_operations = st.concurrent_operations + 1 := by
  unfold eventWrapperEnter
  dsimp only
  split <;> rfl

theorem eventWrapperEnter_statistics (now : ℚ) (st : PluginState) :
    (eventWrapperEnter now st).statistics =
      { st.statistics with
        events_handled := st.statistics.events_handled + 1 } := by
  unfold eventWrapperEnter
  dsimp only
  split <;> rfl

theorem taskWrapperEnter_concurrent (name : String) (now : ℚ) (st : PluginState) :
    (taskWrapperEnter name now st).concurrent_operations = st.concurrent_operations := rfl

theorem send_request_timeout_state (action : String) (data : Option String)
    (msg_id : String) (now : ℚ) (st : IPCState)
    (hfresh : dLookup msg_id st.pending_requests = none) :
    (send_request_timeout action data msg_id now st).1 = st := by
  show ({ st with
          pending_requests :=
            dErase msg_id (dInsert msg_id () st.pending_requests) } : IPCState) = st
  rw [dErase_dInsert_fresh _ _ _ hfresh]

/-- C10: an inbound request message that lacks an id field invokes no
handler, emits no response message of any kind, and leaves the client
state unchanged (the only effect is an error log line on the stderr
side-channel). -/
theorem claim_C10_request_without_id_dropped
    (action : Option String) (data : Option String) (ts : Option ℚ)
    (now : ℚ) (st : IPCState) :
    (handle_request
        { mtype := some "request", id := none, action := action
          data := data, error := none, timestamp := ts } now st).state = st ∧
    (handle_request
        { mtype := some "request", id := none, action := action
          data := data, error := none, timestamp := ts } now st).invoked = [] ∧
    (handle_request
        { mtype := some "request", id := none, action := action
          data := data, error := none, timestamp := ts } now st).sent = [] :=
  ⟨rfl, rfl, rfl⟩

/-- C5: a `send_request` that times out raises a Timeout error whose
message carries the action name, and leaves no trace of the request id
in the pending-requests registry; any number of repeated timed-out
requests (each under its fresh id) leaves the registry exactly as it
started. -/
theorem claim_C5_timeout_cleans_registry :
    (∀ (action : String) (data : Option String) (msg_id : String) (now : ℚ)
        (st : IPCState),
      dLookup msg_id st.pending_requests = none →
      (send_request_timeout action data msg_id now st).2.2 =
          "Request timeout: " ++ action ∧
      (send_request_timeout action data msg_id now st).1.pending_requests =
          st.pending_requests ∧
      dLookup msg_id (send_request_timeout action data msg_id now st).1.pending_requests =
          none) ∧
    (∀ (reqs : List (String × Option String × String)) (now : ℚ) (st : IPCState),
      (∀ r ∈ reqs, dLookup r.2.2 st.pending_requests = none) →
      (run_timeouts reqs now st).pending_requests = st.pending_requests) := by
  constructor
  · intro action data msg_id now st hfresh
    have hst := send_request_timeout_state action data msg_id now st hfresh
    refine ⟨rfl, ?_, ?_⟩
    · rw [hst]
    · rw [hst]; exact hfresh
  · intro reqs
    induction reqs with
    | nil =>
      intro now st _
      rfl
    | cons r rest ih =>
      intro now st h
      have hfr : dLookup r.2.2 st.pending_requests = none := h r (by simp)
      have hst := send_request_timeout_state r.1 r.2.1 r.2.2 now st hfr
      show (run_timeouts rest now ((send_request_timeout r.1 r.2.1 r.2.2 now st).1)).pending_requests =
        st.pending_requests
      rw [hst]
      exact ih now st (fun q hq => h q (by simp [hq]))

/-- C5 witness: a concrete timed-out request on a registry holding one
other pending entry. -/
theorem claim_C5_timeout_cleans_registry_witness :
    dLookup "id9" ({ pending_requests := [("id1", ())], event_handlers := []
                     running := true } : IPCState).pending_requests = none ∧
    (send_request_timeout "callApi" none "id9" 0
        { pending_requests := [("id1", ())], event_handlers := []
          running := true }).2.2 = "Request timeout: " ++ "callApi" :=
  ⟨by decide,
   (claim_C5_timeout_cleans_registry.1 "callApi" none "id9" 0
      { pending_requests := [("id1", ())], event_handlers := [], running := true }
      (by decide)).1⟩

/-- C2 counterexample: a registered command handler that raises is not
re-raised by its instrumentation wrapper — the wrapper returns
normally (the `except` block of `register_command` has no `raise`),
contradicting the claim that command wrappers re-raise the original
exception. -/
theorem claim_C2_counterexample :
    (command_wrapped_handler "x" (HandlerOutcome.raises "boom") 0 0
        (initPluginState "p" 0)).2 = HandlerOutcome.ok ∧
    HandlerOutcome.ok ≠ HandlerOutcome.raises "boom" :=
  ⟨rfl, by decide⟩

/-- C2 amended: after recording the error, the event wrapper re-raises
the original exception to its caller, but the command wrapper swallows
it (returning normally after attempting the best-effort user notice);
the task wrapper re-raises, yet `dispatch_task` catches the failure,
so task failures are not propagated past the task runner (its embedding
returns a plain state and still records the error). -/
theorem claim_C2_wrapper_propagation
    (name cron msg : String) (now dur : ℚ) (st : PluginState) :
    (event_wrapped_handler name (HandlerOutcome.raises msg) now dur st).2 =
        HandlerOutcome.raises msg ∧
    (event_wrapped_handler name (HandlerOutcome.raises msg) now dur st).1.statistics.errors_occurred =
        st.statistics.errors_occurred + 1 ∧
    (command_wrapped_handler name (HandlerOutcome.raises msg) now dur st).2 =
        HandlerOutcome.ok ∧
    (command_wrapped_handler name (HandlerOutcome.raises msg) now dur st).1.statistics.errors_occurred =
        st.statistics.errors_occurred + 1 ∧
    (task_wrapped_handler name (HandlerOutcome.raises msg) now st).2 =
        HandlerOutcome.raises msg ∧
    (dispatch_task name now (schedule name cron (HandlerOutcome.raises msg) st)).statistics.errors_occurred =
        st.statistics.errors_occurred + 1 := by
  refine ⟨rfl, ?_, rfl, ?_, rfl, ?_⟩
  · show (record_performance_internal "event" name dur false now
      { record_error_internal "event" name msg now (eventWrapperEnter now st) with
        concurrent_operations :=
          (record_error_internal "event" name msg now (eventWrapperEnter now st)).concurrent_operations - 1 }).statistics.errors_occurred =
      st.statistics.errors_occurred + 1
    rw [record_performance_statistics]
    show (record_error_internal "event" name msg now (eventWrapperEnter now st)).statistics.errors_occurred =
      st.statistics.errors_occurred + 1
    rw [record_error_statistics]
    show (eventWrapperEnter now st).statistics.errors_occurred + 1 =
      st.statistics.errors_occurred + 1
    rw [eventWrapperEnter_statistics]
  · show (record_performance_internal "command" name dur false now
      { record_error_internal "command" name msg now (commandWrapperEnter now st) with
        concurrent_operations :=
          (record_error_internal "command" name msg now (commandWrapperEnter now st)).concurrent_operations - 1 }).statistics.errors_occurred =
      st.statistics.errors_occurred + 1
    rw [record_performance_statistics]
    show (record_error_internal "command" name msg now (commandWrapperEnter now st)).statistics.errors_occurred =
      st.statistics.errors_occurred + 1
    rw [record_error_statistics]
    show (commandWrapperEnter now st).statistics.errors_occurred + 1 =
      st.statistics.errors_occurred + 1
    rw [commandWrapperEnter_statistics]
  · show (dispatch_task name now (schedule name cron (HandlerOutcome.raises msg) st)).statistics.errors_occurred =
      st.statistics.errors_occurred + 1
    unfold dispatch_task schedule
    dsimp only
    rw [dLookup_dInsert_same]
    dsimp only
    show (record_error_internal "task" name msg now
        (taskWrapperEnter name now _)).statistics.errors_occurred =
      st.statistics.errors_occurred + 1
    rw [record_error_statistics]
    rfl

/-- C1 counterexample: registering the command `x` and dispatching it
once increases `command_executions` by 2, not by 1 — `dispatch_command`
increments the counter itself and the mandatory wrapper increments it
again. -/
theorem claim_C1_counterexample :
    (dispatch_command "x" 0 0
        (register_command "x" HandlerOutcome.ok (initPluginState "p" 0))).2 =
      HandlerOutcome.ok ∧
    (dispatch_command "x" 0 0
        (register_command "x" HandlerOutcome.ok (initPluginState "p" 0))).1.statistics.command_executions ≠
      (register_command "x" HandlerOutcome.ok
        (initPluginState "p" 0)).statistics.command_executions + 1 := by
  constructor
  · rfl
  · decide

/-- C1 amended: a single `dispatch_command` call on a registered
command returns normally (whatever the handler outcome, since the
wrapper swallows handler failures) and increases the
`command_executions` counter by exactly 2: once in `dispatch_command`
itself and once in the mandatory wrapper. -/
theorem claim_C1_dispatch_counts_twice
    (command : String) (h : HandlerOutcome) (now dur : ℚ) (st : PluginState)
    (hreg : dLookup command st.command_handlers = some h) :
    (dispatch_command command now dur st).2 = HandlerOutcome.ok ∧
    (dispatch_command command now dur st).1.statistics.command_executions =
      st.statistics.command_executions + 2 := by
  unfold dispatch_command
  rw [hreg]
  cases h with
  | ok =>
    dsimp only [command_wrapped_handler]
    refine ⟨rfl, ?_⟩
    rw [record_performance_statistics]
    show (commandWrapperEnter now _).statistics.command_executions =
      st.statistics.command_executions + 2
    rw [commandWrapperEnter_statistics]
  | raises msg =>
    dsimp only [command_wrapped_handler]
    refine ⟨rfl, ?_⟩
    rw [record_performance_statistics]
    show (record_error_internal "command" command msg now
        (commandWrapperEnter now _)).statistics.command_executions =
      st.statistics.command_executions + 2
    rw [record_error_statistics]
    show (commandWrapperEnter now _).statistics.command_executions =
      st.statistics.command_executions + 2
    rw [commandWrapperEnter_statistics]

/-- C1 witness: the amended theorem applied to the command `x`
registered on a fresh plugin state. -/
theorem claim_C1_dispatch_counts_twice_witness :
    dLookup "x" (register_command "x" HandlerOutcome.ok
        (initPluginState "p" 0)).command_handlers = some HandlerOutcome.ok ∧
    (dispatch_command "x" 0 0
        (register_command "x" HandlerOutcome.ok (initPluginState "p" 0))).1.statistics.command_executions =
      (register_command "x" HandlerOutcome.ok
        (initPluginState "p" 0)).statistics.command_executions + 2 :=
  ⟨by decide,
   (claim_C1_dispatch_counts_twice "x" HandlerOutcome.ok 0 0
      (register_command "x" HandlerOutcome.ok (initPluginState "p" 0))
      (by decide)).2⟩

/-- C6 counterexample: a response whose id has no registry entry is
discarded (state unchanged, nothing settled) but nothing is logged at
warning level — the only log line emitted on this path is the generic
per-message info line, so the claim that the discard is logged at
warning level is false. -/
theorem claim_C6_counterexample :
    (handle_message
        { mtype := some "response", id := some "zzz", action := none
          data := none, error := none, timestamp := none }
        { pending_requests := [("a", ())], event_handlers := []
          running := true }).state.pending_requests = [("a", ())] ∧
    (handle_message
        { mtype := some "response", id := some "zzz", action := none
          data := none, error := none, timestamp := none }
        { pending_requests := [("a", ())], event_handlers := []
          running := true }).settled = [] ∧
    ((handle_message
        { mtype := some "response", id := some "zzz", action := none
          data := none, error := none, timestamp := none }
        { pending_requests := [("a", ())], event_handlers := []
          running := true }).logs.all
      (fun e => e.level != LogLevel.warn)) = true :=
  ⟨rfl, rfl, by decide⟩

/-- C6 amended: an inbound response whose identifier is unknown (or
falsy) is discarded without raising: the registry and the rest of the
client state are left unchanged, no future is settled, nothing is
spawned, and the only log line emitted is the generic per-message info
line — in particular nothing is logged at warning level. -/
theorem claim_C6_unknown_response_discarded
    (msg : IPCMessage) (st : IPCState)
    (hresp : msg.mtype = some "response")
    (hmiss : truthy msg.id = false ∨
             dLookup (showOpt msg.id) st.pending_requests = none) :
    (handle_message msg st).state = st ∧
    (handle_message msg st).settled = [] ∧
    (handle_message msg st).spawned = [] ∧
    (handle_message msg st).logs =
      [{ level := LogLevel.info
         text := "处理消息: type=" ++ showOpt msg.mtype ++ ", id=" ++ showOpt msg.id }] := by
  have hcond : ¬ ((truthy msg.id : Prop) ∧
      (dLookup (showOpt msg.id) st.pending_requests).isSome) := by
    rcases hmiss with h | h
    · intro hc
      rw [h] at hc
      simp at hc
    · intro hc
      rw [h] at hc
      simp at hc
  unfold handle_message
  rw [if_pos hresp, if_neg hcond]
  exact ⟨rfl, rfl, rfl, rfl⟩

/-- C6 witness: the amended theorem applied to a concrete unmatched
response on a registry holding one unrelated entry. -/
theorem claim_C6_unknown_response_discarded_witness :
    ({ mtype := some "response", id := some "zzz", action := none
       data := none, error := none, timestamp := none } : IPCMessage).mtype =
      some "response" ∧
    (handle_message
        { mtype := some "response", id := some "zzz", action := none
          data := none, error := none, timestamp := none }
        { pending_requests := [("a", ())], event_handlers := []
          running := true }).settled = [] :=
  ⟨rfl,
   (claim_C6_unknown_response_discarded
      { mtype := some "response", id := some "zzz", action := none
        data := none, error := none, timestamp := none }
      { pending_requests := [("a", ())], event_handlers := [], running := true }
      rfl (Or.inr (by decide))).2.1⟩

/-- C9 counterexample: the snapshot returned by `get_detailed_info`
stores the runtime-owned `statistics` dict itself; recording one error
after taking the snapshot changes what the snapshot's statistics entry
reads, so the snapshot does not stay unchanged under later mutation. -/
theorem claim_C9_counterexample :
    (get_detailed_info (initPluginState "p" 0)).readStatistics
        (record_error_internal "e" "s" "m" 0 (initPluginState "p" 0)) ≠
      (get_detailed_info (initPluginState "p" 0)).readStatistics
        (initPluginState "p" 0) := by
  decide

/-- C9 amended: `get_detailed_info` copies the error-log slice (last
ten entries) and the command name list, which later mutations cannot
touch, but returns the statistics counters and the command performance
table as live aliases: dereferencing the snapshot after a mutation
yields the mutated values, and in particular recording an error after
the snapshot changes what the snapshot's statistics entry reads. -/
theorem claim_C9_snapshot_alias_vs_copy
    (st : PluginState) (etype source msg : String) (now : ℚ) :
    (get_detailed_info st).readStatistics
        (record_error_internal etype source msg now st) =
      (record_error_internal etype source msg now st).statistics ∧
    (get_detailed_info st).readStatistics
        (record_error_internal etype source msg now st) ≠ st.statistics ∧
    (get_detailed_info st).errors_slice = takeLast 10 st.errors ∧
    (get_detailed_info st).commands = st.command_handlers.map Prod.fst ∧
    ∀ (p n : String) (d : ℚ) (s : Bool),
      (get_detailed_info st).readCommandPerformance
          (record_performance_internal p n d s now st) =
        (record_performance_internal p n d s now st).command_performance := by
  refine ⟨rfl, ?_, rfl, rfl, fun p n d s => rfl⟩
  intro heq
  have h2 : st.statistics.errors_occurred + 1 = st.statistics.errors_occurred := by
    have h3 := congrArg Statistics.errors_occurred heq
    simp [DetailedInfo.readStatistics, get_detailed_info,
          record_error_statistics] at h3
  omega

theorem command_wrapper_concurrent (name : String) (h : HandlerOutcome) (now dur : ℚ)
    (st : PluginState) :
    (command_wrapped_handler name h now dur st).1.concurrent_operations =
      st.concurrent_operations := by
  cases h with
  | ok =>
    show (record_performance_internal "command" name dur true now
        { commandWrapperEnter now st with
          concurrent_operations :=
            (commandWrapperEnter now st).concurrent_operations - 1 }).concurrent_operations =
      st.concurrent_operations
    rw [record_performance_concurrent]
    show (commandWrapperEnter now st).concurrent_operations - 1 = st.concurrent_operations
    rw [commandWrapperEnter_concurrent]
    omega
  | raises msg =>
    show (record_performance_internal "command" name dur false now
        { record_error_internal "command" name msg now (commandWrapperEnter now st) with
          concurrent_operations :=
            (record_error_internal "command" name msg now
              (commandWrapperEnter now st)).concurrent_operations - 1 }).concurrent_operations =
      st.concurrent_operations
    rw [record_performance_concurrent]
    show (record_error_internal "command" name msg now
        (commandWrapperEnter now st)).concurrent_operations - 1 = st.concurrent_operations
    rw [record_error_concurrent, commandWrapperEnter_concurrent]
    omega

theorem event_wrapper_concurrent (name : String) (h : HandlerOutcome) (now dur : ℚ)
    (st : PluginState) :
    (event_wrapped_handler name h now dur st).1.concurrent_operations =
      st.concurrent_operations := by
  cases h with
  | ok =>
    show (record_performance_internal "event" name dur true now
        { eventWrapperEnter now st with
          concurrent_operations :=
            (eventWrapperEnter now st).concurrent_operations - 1 }).concurrent_operations =
      st.concurrent_operations
    rw [record_performance_concurrent]
    show (eventWrapperEnter now st).concurrent_operations - 1 = st.concurrent_operations
    rw [eventWrapperEnter_concurrent]
    omega
  | raises msg =>
    show (record_performance_internal "event" name dur false now
        { record_error_internal "event" name msg now (eventWrapperEnter now st) with
          concurrent_operations :=
            (record_error_internal "event" name msg now
              (eventWrapperEnter now st)).concurrent_operations - 1 }).concurrent_operations =
      st.concurrent_operations
    rw [record_performance_concurrent]
    show (record_error_internal "event" name msg now
        (eventWrapperEnter now st)).concurrent_operations - 1 = st.concurrent_operations
    rw [record_error_concurrent, eventWrapperEnter_concurrent]
    omega

theorem task_wrapper_concurrent (name : String) (h : HandlerOutcome) (now : ℚ)
    (st : PluginState) :
    (task_wrapped_handler name h now st).1.concurrent_operations =
      st.concurrent_operations := by
  cases h with
  | ok => rfl
  | raises msg => rfl

/-- C4: every wrapped handler invocation, of any kind and outcome,
returns the global concurrency counter to its pre-call value, and if
the counter is nonnegative before the call it stays nonnegative both
at the in-flight point (right after the pre-invocation increments) and
after the call. -/
theorem claim_C4_concurrency_counter (inv : Invocation) (st : PluginState) :
    (runInvocation inv st).concurrent_operations = st.concurrent_operations ∧
    (0 ≤ st.concurrent_operations →
      0 ≤ (invocationEnter inv st).concurrent_operations ∧
      0 ≤ (runInvocation inv st).concurrent_operations) := by
  have hrun : (runInvocation inv st).concurrent_operations = st.concurrent_operations := by
    cases inv with
    | cmd name h now dur => exact command_wrapper_concurrent name h now dur st
    | evt name h now dur => exact event_wrapper_concurrent name h now dur st
    | task name h now => exact task_wrapper_concurrent name h now st
  refine ⟨hrun, fun hge => ⟨?_, ?_⟩⟩
  · cases inv with
    | cmd name h now dur =>
      show 0 ≤ (commandWrapperEnter now st).concurrent_operations
      rw [commandWrapperEnter_concurrent]
      omega
    | evt name h now dur =>
      show 0 ≤ (eventWrapperEnter now st).concurrent_operations
      rw [eventWrapperEnter_concurrent]
      omega
    | task name h now =>
      show 0 ≤ (taskWrapperEnter name now st).concurrent_operations
      rw [taskWrapperEnter_concurrent]
      exact hge
  · rw [hrun]
    exact hge

/-- C4 witness: the theorem applied to one command invocation on a
fresh plugin state. -/
theorem claim_C4_concurrency_counter_witness :
    (0 : Int) ≤ (initPluginState "p" 0).concurrent_operations ∧
    (runInvocation (Invocation.cmd "x" HandlerOutcome.ok 0 0)
        (initPluginState "p" 0)).concurrent_operations =
      (initPluginState "p" 0).concurrent_operations ∧
    0 ≤ (invocationEnter (Invocation.cmd "x" HandlerOutcome.ok 0 0)
        (initPluginState "p" 0)).concurrent_operations :=
  ⟨by decide,
   (claim_C4_concurrency_counter (Invocation.cmd "x" HandlerOutcome.ok 0 0)
      (initPluginState "p" 0)).1,
   ((claim_C4_concurrency_counter (Invocation.cmd "x" HandlerOutcome.ok 0 0)
      (initPluginState "p" 0)).2 (by decide)).1⟩

/-- C3 counterexample: invoking the wrapper of a registered scheduled
task neither touches the concurrency counter or its high-water mark
nor appends any performance sample (all three performance tables stay
empty), even though the invocation really runs (the task counter
becomes 1) — so the claim fails for the task kind. -/
theorem claim_C3_counterexample :
    (task_wrapped_handler "t" HandlerOutcome.ok 0
        (schedule "t" "0 0 * * *" HandlerOutcome.ok
          (initPluginState "p" 0))).1.task_performance = [] ∧
    (task_wrapped_handler "t" HandlerOutcome.ok 0
        (schedule "t" "0 0 * * *" HandlerOutcome.ok
          (initPluginState "p" 0))).1.command_performance = [] ∧
    (task_wrapped_handler "t" HandlerOutcome.ok 0
        (schedule "t" "0 0 * * *" HandlerOutcome.ok
          (initPluginState "p" 0))).1.event_performance = [] ∧
    (task_wrapped_handler "t" HandlerOutcome.ok 0
        (schedule "t" "0 0 * * *" HandlerOutcome.ok
          (initPluginState "p" 0))).1.max_concurrent_operations = 0 ∧
    (task_wrapped_handler "t" HandlerOutcome.ok 0
        (schedule "t" "0 0 * * *" HandlerOutcome.ok
          (initPluginState "p" 0))).1.statistics.tasks_executed = 1 := by
  refine ⟨rfl, rfl, rfl, rfl, rfl⟩

theorem selectPerfMap_command (st : PluginState) :
    selectPerfMap st "command" = st.command_performance := rfl

theorem selectPerfMap_event (st : PluginState) :
    selectPerfMap st "event" = st.event_performance := rfl

theorem selectPerfMap_setPerfMap_same (st : PluginState) (p : String)
    (m : List (String × PerfRecord)) : selectPerfMap (setPerfMap st p m) p = m := by
  unfold selectPerfMap setPerfMap
  split_ifs <;> rfl

theorem trimmed_window_getLast (w : List PerfSample) (s : PerfSample) :
    (if (w ++ [s]).length > 20 then (w ++ [s]).tail else w ++ [s]).getLast? = some s := by
  split
  · rename_i hlen
    cases w with
    | nil => simp at hlen
    | cons a l =>
      show (l ++ [s]).getLast? = some s
      exact List.getLast?_concat _
  · exact List.getLast?_concat _

theorem record_performance_appends (p n : String) (d : ℚ) (s : Bool) (now : ℚ)
    (st : PluginState) (hd : 0 ≤ d) :
    ((dLookup n (selectPerfMap (record_performance_internal p n d s now st) p)).getD
        freshPerfRecord).last_executions.getLast? =
      some { timestamp := now, duration := d, success := s } := by
  unfold record_performance_internal
  rw [if_neg (not_lt.mpr hd)]
  dsimp only
  rw [selectPerfMap_setPerfMap_same, dLookup_dInsert_same]
  dsimp only [Option.getD]
  exact trimmed_window_getLast _ _

theorem command_wrapper_appends_sample (name : String) (h : HandlerOutcome)
    (now dur : ℚ) (st : PluginState) (hd : 0 ≤ dur) :
    ((dLookup name (command_wrapped_handler name h now dur st).1.command_performance).getD
        freshPerfRecord).last_executions.getLast? =
      some { timestamp := now, duration := dur, success := outcomeSuccess h } := by
  cases h with
  | ok =>
    show ((dLookup name (record_performance_internal "command" name dur true now
        { commandWrapperEnter now st with
          concurrent_operations :=
            (commandWrapperEnter now st).concurrent_operations - 1 }).command_performance).getD
        freshPerfRecord).last_executions.getLast? = _
    rw [← selectPerfMap_command]
    exact record_performance_appends "command" name dur true now _ hd
  | raises msg =>
    show ((dLookup name (record_performance_internal "command" name dur false now
        { record_error_internal "command" name msg now (commandWrapperEnter now st) with
          concurrent_operations :=
            (record_error_internal "command" name msg now
              (commandWrapperEnter now st)).concurrent_operations - 1 }).command_performance).getD
        freshPerfRecord).last_executions.getLast? = _
    rw [← selectPerfMap_command]
    exact record_performance_appends "command" name dur false now _ hd

theorem event_wrapper_appends_sample (name : String) (h : HandlerOutcome)
    (now dur : ℚ) (st : PluginState) (hd : 0 ≤ dur) :
    ((dLookup name (event_wrapped_handler name h now dur st).1.event_performance).getD
        freshPerfRecord).last_executions.getLast? =
      some { timestamp := now, duration := dur, success := outcomeSuccess h } := by
  cases h with
  | ok =>
    show ((dLookup name (record_performance_internal "event" name dur true now
        { eventWrapperEnter now st with
          concurrent_operations :=
            (eventWrapperEnter now st).concurrent_operations - 1 }).event_performance).getD
        freshPerfRecord).last_executions.getLast? = _
    rw [← selectPerfMap_event]
    exact record_performance_appends "event" name dur true now _ hd
  | raises msg =>
    show ((dLookup name (record_performance_internal "event" name dur false now
        { record_error_internal "event" name msg now (eventWrapperEnter now st) with
          concurrent_operations :=
            (record_error_internal "event" name msg now
              (eventWrapperEnter now st)).concurrent_operations - 1 }).event_performance).getD
        freshPerfRecord).last_executions.getLast? = _
    rw [← selectPerfMap_event]
    exact record_performance_appends "event" name dur false now _ hd

theorem commandWrapperEnter_max (now : ℚ) (st : PluginState) :
    (commandWrapperEnter now st).max_concurrent_operations =
      max st.max_concurrent_operations (st.concurrent_operations + 1) := by
  unfold commandWrapperEnter
  dsimp only
  split <;> rename_i hc <;> dsimp only <;> omega

theorem eventWrapperEnter_max (now : ℚ) (st : PluginState) :
    (eventWrapperEnter now st).max_concurrent_operations =
      max st.max_concurrent_operations (st.concurrent_operations + 1) := by
  unfold eventWrapperEnter
  dsimp only
  split <;> rename_i hc <;> dsimp only <;> omega

/-- C3 amended: command and event wrapper invocations increment the
concurrency counter (updating the high-water mark) and, whatever the
outcome, return it to its pre-call value and append a performance
sample for the handler name to the matching rolling window; the task
wrapper does none of this — it leaves the concurrency counter, the
high-water mark and all three performance tables untouched. -/
theorem claim_C3_wrapper_accounting
    (name : String) (h : HandlerOutcome) (now dur : ℚ) (st : PluginState)
    (hd : 0 ≤ dur) :
    ((commandWrapperEnter now st).concurrent_operations = st.concurrent_operations + 1 ∧
     (commandWrapperEnter now st).max_concurrent_operations =
        max st.max_concurrent_operations (st.concurrent_operations + 1) ∧
     (command_wrapped_handler name h now dur st).1.concurrent_operations =
        st.concurrent_operations ∧
     ((dLookup name (command_wrapped_handler name h now dur st).1.command_performance).getD
        freshPerfRecord).last_executions.getLast? =
          some { timestamp := now, duration := dur, success := outcomeSuccess h }) ∧
    ((eventWrapperEnter now st).concurrent_operations = st.concurrent_operations + 1 ∧
     (eventWrapperEnter now st).max_concurrent_operations =
        max st.max_concurrent_operations (st.concurrent_operations + 1) ∧
     (event_wrapped_handler name h now dur st).1.concurrent_operations =
        st.concurrent_operations ∧
     ((dLookup name (event_wrapped_handler name h now dur st).1.event_performance).getD
        freshPerfRecord).last_executions.getLast? =
          some { timestamp := now, duration := dur, success := outcomeSuccess h }) ∧
    ((task_wrapped_handler name h now st).1.concurrent_operations =
        st.concurrent_operations ∧
     (task_wrapped_handler name h now st).1.max_concurrent_operations =
        st.max_concurrent_operations ∧
     (task_wrapped_handler name h now st).1.command_performance = st.command_performance ∧
     (task_wrapped_handler name h now st).1.event_performance = st.event_performance ∧
     (task_wrapped_handler name h now st).1.task_performance = st.task_performance) := by
  refine ⟨⟨commandWrapperEnter_concurrent now st, commandWrapperEnter_max now st,
           command_wrapper_concurrent name h now dur st,
           command_wrapper_appends_sample name h now dur st hd⟩,
          ⟨eventWrapperEnter_concurrent now st, eventWrapperEnter_max now st,
           event_wrapper_concurrent name h now dur st,
           event_wrapper_appends_sample name h now dur st hd⟩,
          ?_⟩
  cases h with
  | ok => exact ⟨rfl, rfl, rfl, rfl, rfl⟩
  | raises msg => exact ⟨rfl, rfl, rfl, rfl, rfl⟩

/-- C3 witness: the amended theorem applied to one successful command
invocation of duration 5 on a fresh plugin state. -/
theorem claim_C3_wrapper_accounting_witness :
    (0 : ℚ) ≤ 5 ∧
    ((dLookup "x" (command_wrapped_handler "x" HandlerOutcome.ok 0 5
        (initPluginState "p" 0)).1.command_performance).getD
        freshPerfRecord).last_executions.getLast? =
      some { timestamp := 0, duration := 5, success := outcomeSuccess HandlerOutcome.ok } :=
  ⟨by norm_num,
   (claim_C3_wrapper_accounting "x" HandlerOutcome.ok 0 5
      (initPluginState "p" 0) (by norm_num)).1.2.2.2⟩

theorem dLookup_dInsert_getD_pred {α : Type} (P : α → Prop) (d0 : α)
    (m : List (String × α)) (k : String) (v : α)
    (hm : ∀ q, P ((dLookup q m).getD d0)) (hv : P v) (q : String) :
    P ((dLookup q (dInsert k v m)).getD d0) := by
  by_cases hq : q = k
  · subst hq
    rw [dLookup_dInsert_same]
    exact hv
  · rw [dLookup_dInsert_other _ _ _ _ hq]
    exact hm q

theorem selectPerfMap_setPerfMap (st : PluginState) (p q : String)
    (M : List (String × PerfRecord)) :
    selectPerfMap (setPerfMap st q M) p = M ∨
    selectPerfMap (setPerfMap st q M) p = selectPerfMap st p := by
  unfold selectPerfMap setPerfMap
  split_ifs <;> simp

theorem record_performance_preserves_avg_pred (p' n' : String) (d : ℚ) (s : Bool)
    (now : ℚ) (st : PluginState)
    (h : ∀ p n,
      ((dLookup n (selectPerfMap st p)).getD freshPerfRecord).avg_duration =
        ((dLookup n (selectPerfMap st p)).getD freshPerfRecord).total_duration /
          (((dLookup n (selectPerfMap st p)).getD freshPerfRecord).total_executions : ℚ) ∧
      ((dLookup n (selectPerfMap st p)).getD freshPerfRecord).total_executions =
        ((dLookup n (selectPerfMap st p)).getD freshPerfRecord).successful_executions +
          ((dLookup n (selectPerfMap st p)).getD freshPerfRecord).failed_executions) :
    ∀ p n,
      ((dLookup n (selectPerfMap (record_performance_internal p' n' d s now st) p)).getD
          freshPerfRecord).avg_duration =
        ((dLookup n (selectPerfMap (record_performance_internal p' n' d s now st) p)).getD
          freshPerfRecord).total_duration /
          (((dLookup n (selectPerfMap (record_performance_internal p' n' d s now st) p)).getD
            freshPerfRecord).total_executions : ℚ) ∧
      ((dLookup n (selectPerfMap (record_performance_internal p' n' d s now st) p)).getD
          freshPerfRecord).total_executions =
        ((dLookup n (selectPerfMap (record_performance_internal p' n' d s now st) p)).getD
          freshPerfRecord).successful_executions +
          ((dLookup n (selectPerfMap (record_performance_internal p' n' d s now st) p)).getD
            freshPerfRecord).failed_executions := by
  intro p n
  unfold record_performance_internal
  split
  · exact h p n
  · dsimp only
    rcases selectPerfMap_setPerfMap st p p' _ with heq | heq
    · rw [heq]
      refine dLookup_dInsert_getD_pred
        (fun r => r.avg_duration = r.total_duration / (r.total_executions : ℚ) ∧
          r.total_executions = r.successful_executions + r.failed_executions)
        freshPerfRecord _ n' _ (h p') ?_ n
      refine ⟨rfl, ?_⟩
      have h2 := (h p' n').2
      cases s <;> simp <;> omega
    · rw [heq]
      exact h p n

/-- C8: after any sequence of recorded samples starting from a fresh
plugin state, every stored performance record (of every kind and name,
the absent ones read as the fresh record) satisfies
`avg_duration = total_duration / total_executions` and
`total_executions = successful_executions + failed_executions`. -/
theorem claim_C8_avg_and_total_invariant (ops : List RecordOp) (pid : String)
    (t0 : ℚ) (p n : String) :
    ((dLookup n (selectPerfMap (applyRecordOps ops (initPluginState pid t0)) p)).getD
        freshPerfRecord).avg_duration =
      ((dLookup n (selectPerfMap (applyRecordOps ops (initPluginState pid t0)) p)).getD
        freshPerfRecord).total_duration /
        (((dLookup n (selectPerfMap (applyRecordOps ops (initPluginState pid t0)) p)).getD
          freshPerfRecord).total_executions : ℚ) ∧
    ((dLookup n (selectPerfMap (applyRecordOps ops (initPluginState pid t0)) p)).getD
        freshPerfRecord).total_executions =
      ((dLookup n (selectPerfMap (applyRecordOps ops (initPluginState pid t0)) p)).getD
        freshPerfRecord).successful_executions +
        ((dLookup n (selectPerfMap (applyRecordOps ops (initPluginState pid t0)) p)).getD
          freshPerfRecord).failed_executions := by
  have hmain : ∀ (ops : List RecordOp) (st : PluginState),
      (∀ p n,
        ((dLookup n (selectPerfMap st p)).getD freshPerfRecord).avg_duration =
          ((dLookup n (selectPerfMap st p)).getD freshPerfRecord).total_duration /
            (((dLookup n (selectPerfMap st p)).getD freshPerfRecord).total_executions : ℚ) ∧
        ((dLookup n (selectPerfMap st p)).getD freshPerfRecord).total_executions =
          ((dLookup n (selectPerfMap st p)).getD freshPerfRecord).successful_executions +
            ((dLookup n (selectPerfMap st p)).getD freshPerfRecord).failed_executions) →
      ∀ p n,
        ((dLookup n (selectPerfMap (applyRecordOps ops st) p)).getD
            freshPerfRecord).avg_duration =
          ((dLookup n (selectPerfMap (applyRecordOps ops st) p)).getD
            freshPerfRecord).total_duration /
            (((dLookup n (selectPerfMap (applyRecordOps ops st) p)).getD
              freshPerfRecord).total_executions : ℚ) ∧
        ((dLookup n (selectPerfMap (applyRecordOps ops st) p)).getD
            freshPerfRecord).total_executions =
          ((dLookup n (selectPerfMap (applyRecordOps ops st) p)).getD
            freshPerfRecord).successful_executions +
            ((dLookup n (selectPerfMap (applyRecordOps ops st) p)).getD
              freshPerfRecord).failed_executions := by
    intro ops
    induction ops with
    | nil => intro st h; exact h
    | cons op rest ih =>
      intro st h
      show ∀ p n, _
      apply ih
      cases op with
      | err etype source msg nw => exact h
      | perf pt nm dd ss nw =>
        exact record_performance_preserves_avg_pred pt nm dd ss nw st h
  apply hmain ops (initPluginState pid t0)
  intro p' n'
  unfold selectPerfMap
  split_ifs <;>
  · constructor
    · show (0 : ℚ) = 0 / ((0 : ℕ) : ℚ)
      norm_num
    · rfl

theorem trimmed_window_length (w : List PerfSample) (s : PerfSample)
    (h : w.length ≤ 20) :
    (if (w ++ [s]).length > 20 then (w ++ [s]).tail else w ++ [s]).length ≤ 20 := by
  split <;> rename_i hh <;>
    simp only [List.length_tail, List.length_append, List.length_singleton] at * <;> omega

theorem record_error_errors_bound (etype source msg : String) (now : ℚ)
    (st : PluginState) (h : st.errors.length ≤ 100) :
    (record_error_internal etype source msg now st).errors.length ≤ 100 := by
  unfold record_error_internal
  dsimp only
  split <;> rename_i hh <;>
    simp only [List.length_tail, List.length_append, List.length_singleton] at * <;> omega

theorem record_performance_preserves_window_bound (p' n' : String) (d : ℚ)
    (s : Bool) (now : ℚ) (st : PluginState)
    (h : ∀ p n, ((dLookup n (selectPerfMap st p)).getD
        freshPerfRecord).last_executions.length ≤ 20) :
    ∀ p n, ((dLookup n (selectPerfMap (record_performance_internal p' n' d s now st) p)).getD
        freshPerfRecord).last_executions.length ≤ 20 := by
  intro p n
  unfold record_performance_internal
  split
  · exact h p n
  · dsimp only
    rcases selectPerfMap_setPerfMap st p p' _ with heq | heq
    · rw [heq]
      refine dLookup_dInsert_getD_pred (fun r => r.last_executions.length ≤ 20)
        freshPerfRecord _ n' _ (h p') ?_ n
      exact trimmed_window_length _ _ (h p' n')
    · rw [heq]
      exact h p n

theorem record_error_evicts_oldest (etype source msg : String) (now : ℚ)
    (st : PluginState) (h : st.errors.length = 100) :
    (record_error_internal etype source msg now st).errors =
      st.errors.tail ++
        [{ etype := etype, source := source, message := msg
           timestamp := now, plugin_id := st.plugin_id }] := by
  unfold record_error_internal
  dsimp only
  rw [if_pos (by simp [h])]
  obtain ⟨a, l, herrs⟩ : ∃ a l, st.errors = a :: l := by
    cases herrs : st.errors with
    | nil =>
      rw [herrs] at h
      simp at h
    | cons a l => exact ⟨a, l, rfl⟩
  rw [herrs]
  rfl

theorem trimmed_window_evict (w : List PerfSample) (s : PerfSample)
    (h : w.length = 20) :
    (if (w ++ [s]).length > 20 then (w ++ [s]).tail else w ++ [s]) = w.tail ++ [s] := by
  rw [if_pos]
  · cases w with
    | nil => simp at h
    | cons a l => rfl
  · simp only [List.length_append, List.length_singleton, h]
    omega

theorem record_performance_evicts_oldest (p n : String) (d : ℚ) (s : Bool)
    (now : ℚ) (st : PluginState) (hd : 0 ≤ d)
    (h : ((dLookup n (selectPerfMap st p)).getD
        freshPerfRecord).last_executions.length = 20) :
    ((dLookup n (selectPerfMap (record_performance_internal p n d s now st) p)).getD
        freshPerfRecord).last_executions =
      ((dLookup n (selectPerfMap st p)).getD freshPerfRecord).last_executions.tail ++
        [{ timestamp := now, duration := d, success := s }] := by
  unfold record_performance_internal
  rw [if_neg (not_lt.mpr hd)]
  dsimp only
  rw [selectPerfMap_setPerfMap_same, dLookup_dInsert_same, Option.getD_some]
  show (if (((dLookup n (selectPerfMap st p)).getD freshPerfRecord).last_executions ++
          [({ timestamp := now, duration := d, success := s } : PerfSample)]).length > 20 then
        (((dLookup n (selectPerfMap st p)).getD freshPerfRecord).last_executions ++
          [({ timestamp := now, duration := d, success := s } : PerfSample)]).tail
      else ((dLookup n (selectPerfMap st p)).getD freshPerfRecord).last_executions ++
          [({ timestamp := now, duration := d, success := s } : PerfSample)]) = _
  exact trimmed_window_evict _ _ h

/-- C7: starting from a fresh plugin state, after any sequence of
error and performance recordings the error log holds at most 100
entries and every per-name rolling window (of every kind) holds at
most 20; recording onto an exactly full error log drops its oldest
entry, and recording a sample onto an exactly full window drops its
oldest sample. -/
theorem claim_C7_bounded_logs_oldest_evicted :
    (∀ (ops : List RecordOp) (pid : String) (t0 : ℚ),
      (applyRecordOps ops (initPluginState pid t0)).errors.length ≤ 100 ∧
      ∀ p n, ((dLookup n (selectPerfMap (applyRecordOps ops (initPluginState pid t0)) p)).getD
          freshPerfRecord).last_executions.length ≤ 20) ∧
    (∀ (etype source msg : String) (now : ℚ) (st : PluginState),
      st.errors.length = 100 →
      (record_error_internal etype source msg now st).errors =
        st.errors.tail ++
          [{ etype := etype, source := source, message := msg
             timestamp := now, plugin_id := st.plugin_id }]) ∧
    (∀ (p n : String) (d : ℚ) (s : Bool) (now : ℚ) (st : PluginState),
      0 ≤ d →
      ((dLookup n (selectPerfMap st p)).getD
          freshPerfRecord).last_executions.length = 20 →
      ((dLookup n (selectPerfMap (record_performance_internal p n d s now st) p)).getD
          freshPerfRecord).last_executions =
        ((dLookup n (selectPerfMap st p)).getD freshPerfRecord).last_executions.tail ++
          [{ timestamp := now, duration := d, success := s }]) := by
  refine ⟨?_, record_error_evicts_oldest, record_performance_evicts_oldest⟩
  have hmain : ∀ (ops : List RecordOp) (st : PluginState),
      st.errors.length ≤ 100 →
      (∀ p n, ((dLookup n (selectPerfMap st p)).getD
          freshPerfRecord).last_executions.length ≤ 20) →
      (applyRecordOps ops st).errors.length ≤ 100 ∧
      ∀ p n, ((dLookup n (selectPerfMap (applyRecordOps ops st) p)).getD
          freshPerfRecord).last_executions.length ≤ 20 := by
    intro ops
    induction ops with
    | nil => intro st h1 h2; exact ⟨h1, h2⟩
    | cons op rest ih =>
      intro st h1 h2
      cases op with
      | err a b c nw =>
        exact ih _ (record_error_errors_bound a b c nw st h1) h2
      | perf pt nm dd ss nw =>
        have hErr : (record_performance_internal pt nm dd ss nw st).errors.length ≤ 100 := by
          rw [record_performance_errors]
          exact h1
        exact ih _ hErr (record_performance_preserves_window_bound pt nm dd ss nw st h2)
  intro ops pid t0
  apply hmain ops (initPluginState pid t0)
  · simp [initPluginState]
  · intro p n
    unfold selectPerfMap
    split_ifs <;> exact Nat.zero_le _

/-- C7 witness: the eviction parts of the theorem applied to a state
with an exactly full error log and a state with an exactly full
window. -/
theorem claim_C7_bounded_logs_oldest_evicted_witness :
    fullErrorsState.errors.length = 100 ∧
    (record_error_internal "x" "y" "z" 0 fullErrorsState).errors =
      fullErrorsState.errors.tail ++
        [{ etype := "x", source := "y", message := "z"
           timestamp := 0, plugin_id := fullErrorsState.plugin_id }] ∧
    (0 : ℚ) ≤ 1 ∧
    ((dLookup "n" (selectPerfMap fullWindowState "command")).getD
        freshPerfRecord).last_executions.length = 20 ∧
    ((dLookup "n" (selectPerfMap (record_performance_internal "command" "n" 1 true 0
        fullWindowState) "command")).getD freshPerfRecord).last_executions =
      ((dLookup "n" (selectPerfMap fullWindowState "command")).getD
        freshPerfRecord).last_executions.tail ++
        [{ timestamp := 0, duration := 1, success := true }] :=
  ⟨by simp [fullErrorsState],
   claim_C7_bounded_logs_oldest_evicted.2.1 "x" "y" "z" 0 fullErrorsState
     (by simp [fullErrorsState]),
   by norm_num,
   by simp [fullWindowState, selectPerfMap, dLookup],
   claim_C7_bounded_logs_oldest_evicted.2.2 "command" "n" 1 true 0 fullWindowState
     (by norm_num) (by simp [fullWindowState, selectPerfMap, dLookup])⟩
